import Mathlib

/-!
Shallow embedding of the signal value codec (`src/cantools/database/signalbase.py`)
and of the CDD diagnostics loader (`src/cantools/database/diagnostics/formats/cdd.py`)
of the cantools fork under verification, together with theorems settling the
specification claims about them.

Python numbers (`int` and `float`) are modelled as exact rationals `ℚ`; the
distinction `isinstance(offset, int) or offset.is_integer()` becomes the test
`offset.den = 1`.  Python exceptions are modelled with the explicit result type
`Res`; every function that can raise returns a `Res`.
-/

set_option autoImplicit false

namespace Cantools

/-- The Python exceptions that can be raised by the modelled code.
`valueErrorIntervals l` models the `ValueError` raised by
`get_offset_and_scaling_for_raw` / `get_offset_and_scaling_for_scaled`, whose
message enumerates the intervals in `l` (joined with " OR "). -/
inductive Err where
  | typeError
  | assertionError
  | keyError
  | indexError
  | attributeError
  | valueError
  | zeroDivisionError
  | valueErrorIntervals (intervals : List (ℚ × ℚ))
  | parseError (msg : String)
  deriving DecidableEq, Repr

/-- Result of a Python call: a value or a raised exception. -/
inductive Res (α : Type) where
  | ok (a : α)
  | err (e : Err)
  deriving DecidableEq, Repr

/-- Sequencing of fallible calls (exception propagation). -/
def Res.bind {α β : Type} : Res α → (α → Res β) → Res β
  | .ok a, f => f a
  | .err e, _ => .err e

/-- Map over the result of a fallible call. -/
def Res.map {α β : Type} (f : α → β) : Res α → Res β
  | .ok a => .ok (f a)
  | .err e => .err e

/-- True iff no exception was raised. -/
def Res.isOk {α : Type} : Res α → Bool
  | .ok _ => true
  | .err _ => false

/-- The Python union `Union[List[float], int, float]` used for the `scale` and
`offset` members of `SignalBase`: either a single number or a per-segment list. -/
inductive ScaleT where
  | scalar (q : ℚ)
  | lst (l : List ℚ)
  deriving DecidableEq, Repr

/-- `isinstance(x, list)` for a `ScaleT` value. -/
def ScaleT.isLst : ScaleT → Bool
  | .scalar _ => false
  | .lst _ => true

/-- `zip` of three lists (Python `zip` truncates to the shortest list). -/
def zip3 {α β γ : Type} : List α → List β → List γ → List (α × β × γ)
  | x :: xs, y :: ys, z :: zs => (x, y, z) :: zip3 xs ys zs
  | _, _, _ => []

/-- The choices dictionary `Choices` of a signal: raw integer value to label,
in insertion order. -/
abbrev Choices := List (Int × String)

/-- A decoded signal value: a number or a choice label (`NamedSignalValue`
is modelled by its string form). -/
inductive Value where
  | num (q : ℚ)
  | str (s : String)
  deriving DecidableEq, Repr

/-- State of `SignalBase` after construction (signalbase.py lines 8-109). -/
structure SignalBase where
  name : String
  start : Int
  length : Int
  byte_order : String
  is_signed : Bool
  _scale : ScaleT
  _offset : ScaleT
  is_float : Bool
  minimum : Option ℚ
  maximum : Option ℚ
  choices : Option Choices
  unit : Option String
  segment_intervals_raw : List (ℚ × ℚ)
  segment_intervals_scaled : List (ℚ × ℚ)
  deriving DecidableEq, Repr

/-- The loop of `SignalBase.__init__` (lines 98-109) deriving
`segment_intervals_scaled`: each raw interval end is mapped through
`convert = lambda value, factor, offset: value*factor + offset` using the
segment's own scale and offset (`zip(segment_intervals_raw, scale, offset)`). -/
def scaledIntervals (sir : List (ℚ × ℚ)) (fs offs : List ℚ) : List (ℚ × ℚ) :=
  (zip3 sir fs offs).map (fun t => (t.1.1 * t.2.1 + t.2.2, t.1.2 * t.2.1 + t.2.2))

/-- `SignalBase.__init__` (signalbase.py lines 8-109).  The `assert` statements
of lines 31-40 raise `AssertionError` when scale/offset/segment boundaries are
not simultaneously scalar (with no boundaries) or simultaneously lists of equal
length.  The stray debug `print("foo")` of line 37 is an I/O side effect with no
bearing on the constructed state and is not modelled. -/
def SignalBase_init (name : String) (start length : Int) (byte_order : String)
    (is_signed : Bool) (scale offset : ScaleT) (minimum maximum : Option ℚ)
    (unit : Option String) (choices : Option Choices) (is_float : Bool)
    (segment_intervals_raw : Option (List (ℚ × ℚ))) : Res SignalBase :=
  if scale.isLst || offset.isLst || segment_intervals_raw.isSome then
    match scale, offset, segment_intervals_raw with
    | .lst fs, .lst offs, some sir =>
      if sir.length = fs.length ∧ sir.length = offs.length then
        .ok { name := name, start := start, length := length,
              byte_order := byte_order, is_signed := is_signed,
              _scale := .lst fs, _offset := .lst offs, is_float := is_float,
              minimum := minimum, maximum := maximum, choices := choices,
              unit := unit, segment_intervals_raw := sir,
              segment_intervals_scaled := scaledIntervals sir fs offs }
      else .err .assertionError
    | _, _, _ => .err .assertionError
  else
    .ok { name := name, start := start, length := length,
          byte_order := byte_order, is_signed := is_signed,
          _scale := scale, _offset := offset, is_float := is_float,
          minimum := minimum, maximum := maximum, choices := choices,
          unit := unit, segment_intervals_raw := [],
          segment_intervals_scaled := [] }

/-- Warnings emitted by `SignalBase.__init__` while deriving the scaled segment
boundaries.  Tracing the constructor body (signalbase.py lines 97-109): the loop
only appends to `segment_intervals_scaled`; it contains no logging or warning
call and tracks no running maximum, so the sequence of warnings emitted is empty
for every input. -/
def SignalBase_init_warnings (_sir : List (ℚ × ℚ)) (_fs _offs : List ℚ) :
    List String := []

/-- The `offset` property getter (signalbase.py lines 165-178): raises
`TypeError` when the underlying representation is a list. -/
def offset_getter (s : SignalBase) : Res ℚ :=
  match s._offset with
  | .lst _ => .err .typeError
  | .scalar q => .ok q

/-- The `scale` property getter (signalbase.py lines 185-191): raises
`TypeError` when the underlying representation is a list. -/
def scale_getter (s : SignalBase) : Res ℚ :=
  match s._scale with
  | .lst _ => .err .typeError
  | .scalar q => .ok q

/-- The `offset` property setter (signalbase.py lines 180-183): plain
assignment `self._offset = new_offset`, nothing else. -/
def offset_setter (s : SignalBase) (new_offset : ScaleT) : SignalBase :=
  { s with _offset := new_offset }

/-- The `scale` property setter (signalbase.py lines 193-196): plain
assignment `self._scale = new_scale`, nothing else. -/
def scale_setter (s : SignalBase) (new_scale : ScaleT) : SignalBase :=
  { s with _scale := new_scale }

/-- The scan loop shared by `get_offset_and_scaling_for_raw` and
`get_offset_and_scaling_for_scaled`: return the `(offset, scale)` pair of the
first zipped segment whose closed interval `start <= val <= end` contains the
value. -/
def findSegment (v : ℚ) : List ((ℚ × ℚ) × ℚ × ℚ) → Option (ℚ × ℚ)
  | [] => none
  | (iv, o, f) :: rest =>
    if iv.1 ≤ v ∧ v ≤ iv.2 then some (o, f) else findSegment v rest

/-- `SignalBase.get_offset_and_scaling_for_raw` (signalbase.py lines 121-141):
scalar representation returns the single pair; otherwise scan
`zip(segment_intervals_raw, _offset, _scale)` and on no match raise a
`ValueError` whose message enumerates `segment_intervals_raw`. -/
def get_offset_and_scaling_for_raw (s : SignalBase) (raw_val : ℚ) :
    Res (ℚ × ℚ) :=
  match s._offset with
  | .scalar o =>
    match s._scale with
    | .scalar f => .ok (o, f)
    | .lst _ => .err .assertionError
  | .lst offs =>
    match s._scale with
    | .scalar _ => .err .assertionError
    | .lst fs =>
      match findSegment raw_val (zip3 s.segment_intervals_raw offs fs) with
      | some p => .ok p
      | none => .err (.valueErrorIntervals s.segment_intervals_raw)

/-- `SignalBase.get_offset_and_scaling_for_scaled` (signalbase.py lines
143-163): like the raw variant but scanning `segment_intervals_scaled`.  Note
that the `ValueError` message (line 160) enumerates `segment_intervals_raw`,
not the scaled intervals that were scanned. -/
def get_offset_and_scaling_for_scaled (s : SignalBase) (scaled_val : ℚ) :
    Res (ℚ × ℚ) :=
  match s._offset with
  | .scalar o =>
    match s._scale with
    | .scalar f => .ok (o, f)
    | .lst _ => .err .assertionError
  | .lst offs =>
    match s._scale with
    | .scalar _ => .err .assertionError
    | .lst fs =>
      match findSegment scaled_val (zip3 s.segment_intervals_scaled offs fs) with
      | some p => .ok p
      | none => .err (.valueErrorIntervals s.segment_intervals_raw)

/-- The condition and lookup `self.choices and raw_value in self.choices` /
`self.choices[raw_value]` of `raw_to_scaled` (lines 214-216): `none` means the
condition is falsy (no mapping, empty mapping, or key absent); an empty
dictionary is falsy in Python and yields no match here either.  The
`assert isinstance(raw_value, int)` of line 215 always holds in this model
because a rational equal to an integer key is integral. -/
def choiceLookup (ch : Option Choices) (raw : ℚ) : Option String :=
  match ch with
  | none => none
  | some cs => (cs.find? (fun kv => decide ((kv.1 : ℚ) = raw))).map (fun kv => kv.2)

/-- `SignalBase.choice_string_to_number` (signalbase.py lines 111-119). -/
def choice_string_to_number (s : SignalBase) (string : String) : Res Int :=
  match s.choices with
  | none => .err .valueError
  | some cs =>
    match cs.find? (fun kv => kv.2 = string) with
    | some kv => .ok kv.1
    | none => .err .keyError

/-- `SignalBase.raw_to_scaled` (signalbase.py lines 198-225).  The fast path
`factor == 1 and (isinstance(offset, int) or offset.is_integer())` becomes
`f = 1 ∧ o.den = 1` and returns `raw_value + int(offset)`, which for an
integral offset is exactly `raw_value + o`. -/
def raw_to_scaled (s : SignalBase) (raw_value : ℚ) (decode_choices : Bool) :
    Res Value :=
  match decode_choices, choiceLookup s.choices raw_value with
  | true, some label => .ok (.str label)
  | _, _ =>
    match get_offset_and_scaling_for_raw s raw_value with
    | .err e => .err e
    | .ok (o, f) =>
      if f = 1 ∧ o.den = 1 then .ok (.num (raw_value + o))
      else .ok (.num (raw_value * f + o))

/-- Python's built-in `round`: round half to even. -/
def pyRound (q : ℚ) : Int :=
  let f : Int := ⌊q⌋
  let r : ℚ := q - (f : ℚ)
  if r < 1 / 2 then f
  else if 1 / 2 < r then f + 1
  else if f % 2 = 0 then f else f + 1

/-- `SignalBase.scaled_to_raw` (signalbase.py lines 227-254).  A string input
goes through `choice_string_to_number`; a numeric input is unscaled with the
same fast path as `raw_to_scaled`, dividing by the factor otherwise (a zero
factor raises `ZeroDivisionError` in Python), and the result is kept exact when
`is_float` and rounded half-to-even otherwise. -/
def scaled_to_raw (s : SignalBase) (scaled_value : Value) : Res ℚ :=
  match scaled_value with
  | .str txt => (choice_string_to_number s txt).map (fun n : Int => (n : ℚ))
  | .num v =>
    match get_offset_and_scaling_for_scaled s v with
    | .err e => .err e
    | .ok (o, f) =>
      if f = 1 ∧ o.den = 1 then
        let result := v - o
        if s.is_float then .ok result else .ok ((pyRound result : ℚ))
      else if f = 0 then .err .zeroDivisionError
      else
        let result := (v - o) / f
        if s.is_float then .ok result else .ok ((pyRound result : ℚ))

/-- Helper used by the concrete claim instances: a piecewise codec built by the
constructor from raw segment intervals and per-segment scales and offsets. -/
def mkPiecewise (sir : List (ℚ × ℚ)) (fs offs : List ℚ) : Res SignalBase :=
  SignalBase_init "s" 0 8 "little_endian" false (.lst fs) (.lst offs)
    none none none none false (some sir)

/-- Helper: a scalar (globally scaled) codec built by the constructor. -/
def mkScalar (f o : ℚ) (is_float : Bool) (choices : Option Choices) :
    Res SignalBase :=
  SignalBase_init "s" 0 8 "little_endian" false (.scalar f) (.scalar o)
    none none none choices is_float none

/-! ## CDD loader (`src/cantools/database/diagnostics/formats/cdd.py`)

The XML tree is modelled by `Xml`; `ElementTree.fromstring` (the text-level XML
parse) is outside the model, so `load_string` takes the parsed root element.
`find`/`findall` are modelled for the simple location paths used by the loader:
sequences of child-tag steps, optionally with a 1-based position predicate as
in `NAME/TUV[1]`. -/

/-- An XML element: tag, attributes in document order, text, children. -/
inductive Xml where
  | elem (tag : String) (attrib : List (String × String)) (text : Option String)
      (children : List Xml)

/-- The tag of an element. -/
def Xml.tag : Xml → String
  | .elem t _ _ _ => t

/-- The attribute dictionary of an element. -/
def Xml.attrib : Xml → List (String × String)
  | .elem _ a _ _ => a

/-- The text of an element (`None` when absent). -/
def Xml.text : Xml → Option String
  | .elem _ _ tx _ => tx

/-- The children of an element. -/
def Xml.children : Xml → List Xml
  | .elem _ _ _ cs => cs

/-- One step of an ElementTree location path: a child tag, optionally with a
1-based position (`TUV[1]`). -/
structure Step where
  tag : String
  idx : Option Nat

/-- The children of `e` with the given tag, in document order. -/
def childrenTagged (e : Xml) (t : String) : List Xml :=
  e.children.filter (fun c => c.tag = t)

/-- Apply one path step to a list of context nodes (ElementTree semantics:
`T` selects all `T` children of every context node; `T[i]` keeps, per context
node, the i-th such child). -/
def selectStep (ctx : List Xml) (st : Step) : List Xml :=
  match st.idx with
  | none => ctx.flatMap (fun e => childrenTagged e st.tag)
  | some i =>
    ctx.flatMap (fun e =>
      match (childrenTagged e st.tag).get? (i - 1) with
      | some x => [x]
      | none => [])

/-- `element.findall(path)` for the simple paths used by the CDD loader. -/
def findallPath (e : Xml) (p : List Step) : List Xml :=
  p.foldl selectStep [e]

/-- `element.find(path)`: the first match of `findall`. -/
def findPath (e : Xml) (p : List Step) : Option Xml :=
  (findallPath e p).head?

/-- `element.findall(tag)` for a single-tag path. -/
def findallTag (e : Xml) (t : String) : List Xml :=
  findallPath e [⟨t, none⟩]

/-- `element.find(tag)` for a single-tag path. -/
def findChild (e : Xml) (t : String) : Option Xml :=
  findPath e [⟨t, none⟩]

/-- `element.attrib[key]`: `none` models the `KeyError` case. -/
def lookupAttr (e : Xml) (k : String) : Option String :=
  (e.attrib.find? (fun kv => kv.1 = k)).map (fun kv => kv.2)

/-- The numeric value of a list of decimal digit characters. -/
def digitsToNat (l : List Char) : Option Nat :=
  if l = [] then none
  else if l.all Char.isDigit then
    some (l.foldl (fun a c => a * 10 + (c.toNat - 48)) 0)
  else none

/-- Python `int(s)` on an attribute string (optional sign, decimal digits):
`none` models `ValueError`. -/
def pyInt (s : String) : Option Int :=
  match s.toList with
  | '-' :: rest => (digitsToNat rest).map (fun n => -(n : Int))
  | l => (digitsToNat l).map (fun n => (n : Int))

/-- Decimal part of Python `float(s)`: digits with an optional fraction. -/
def parseDec (l : List Char) : Option ℚ :=
  match l.splitOn '.' with
  | [ip] => (digitsToNat ip).map (fun n => (n : ℚ))
  | [ip, fp] =>
    if ip = [] ∧ fp = [] then none
    else
      match (if ip = [] then some 0 else digitsToNat ip),
            (if fp = [] then some 0 else digitsToNat fp) with
      | some n, some fr => some ((n : ℚ) + (fr : ℚ) / (10 : ℚ) ^ fp.length)
      | _, _ => none
  | _ => none

/-- Python `float(s)` for the plain decimal forms appearing in CDD attributes:
optional sign, digits, optional fraction.  `none` models `ValueError`. -/
def pyFloat (s : String) : Option ℚ :=
  match s.toList with
  | '-' :: rest => (parseDec rest).map (fun q => -q)
  | l => parseDec l

/-- Python `s.strip('()')`: remove leading and trailing parentheses. -/
def stripParens (s : String) : String :=
  let isPar := fun c => c = '(' ∨ c = ')'
  String.mk (((s.toList.dropWhile isPar).reverse.dropWhile isPar).reverse)

/-- Insert into a Python dict modelled as an ordered association list:
an existing key keeps its position and is overwritten, a new key is appended. -/
def dictInsert {α : Type} (l : List (String × α)) (k : String) (v : α) :
    List (String × α) :=
  if l.any (fun p => p.1 = k) then
    l.map (fun p => if p.1 = k then (k, v) else p)
  else l ++ [(k, v)]

/-- Lookup in a Python dict modelled as an association list. -/
def dictLookup {α : Type} (l : List (String × α)) (k : String) : Option α :=
  (l.find? (fun p => p.1 = k)).map (fun p => p.2)

/-- A CDD choices dictionary: raw value to the text of `TEXT/TUV[1]` (whose
`.text` may be `None`). -/
abbrev CddChoices := List (Int × Option String)

/-- The `DataType` record of cdd.py (lines 15-39), with the constructor's
field order. -/
structure DataType where
  name : Option String
  id_ : String
  bit_length : Option Int
  encoding : Option String
  minimum : Option ℚ
  maximum : Option ℚ
  choices : Option CddChoices
  byte_order : String
  unit : Option String
  factor : ℚ
  offset : ℚ
  deriving DecidableEq, Repr

/-- A value of the data-type catalog: `data_types[id]` holds a single
`DataType` or, for a piecewise type with several `COMP` elements, a list. -/
inductive DTEntry where
  | one (t : DataType)
  | many (l : List DataType)
  deriving DecidableEq, Repr

/-- `types = [types]` normalisation at the top of `_load_data_element`. -/
def entryTypes : DTEntry → List DataType
  | .one t => [t]
  | .many l => l

/-- The byte orders of all records of a catalog entry. -/
def entryByteOrders (e : DTEntry) : List String :=
  (entryTypes e).map DataType.byte_order

/-- `_load_choices` (cdd.py lines 42-55): for every `TEXTMAP` child parse the
`s` and `e` attributes (stripped of parentheses); single-point ranges
contribute `choice.find('TEXT/TUV[1]').text`; an empty dict becomes `None`. -/
def loadChoicesGo : List Xml → CddChoices → Res CddChoices
  | [], acc => .ok acc
  | ch :: rest, acc =>
    match lookupAttr ch "s" with
    | none => .err .keyError
    | some sstr =>
      match pyInt (stripParens sstr) with
      | none => .err .valueError
      | some st =>
        match lookupAttr ch "e" with
        | none => .err .keyError
        | some estr =>
          match pyInt (stripParens estr) with
          | none => .err .valueError
          | some en =>
            if st = en then
              match findPath ch [⟨"TEXT", none⟩, ⟨"TUV", some 1⟩] with
              | none => .err .attributeError
              | some txt =>
                loadChoicesGo rest
                  (if acc.any (fun p => p.1 = st) then
                    acc.map (fun p => if p.1 = st then (st, txt.text) else p)
                  else acc ++ [(st, txt.text)])
            else loadChoicesGo rest acc

/-- `_load_choices` (cdd.py lines 42-55). -/
def load_choices (data_type : Xml) : Res (Option CddChoices) :=
  match loadChoicesGo (findallTag data_type "TEXTMAP") [] with
  | .err e => .err e
  | .ok cs => .ok (if cs = [] then none else some cs)

/-- Accumulator of the `CVALUETYPE` attribute loop (cdd.py lines 73-100):
the default values of lines 78-81 and what `bl`/`enc`/`minsz`/`maxsz` set. -/
structure CAcc where
  bit_length : Option Int
  encoding : Option String
  minimum : Option ℚ
  maximum : Option ℚ
  deriving DecidableEq, Repr

/-- One iteration of the `CVALUETYPE` attribute loop (cdd.py lines 90-100);
unrecognised keys are logged at debug level and ignored. -/
def ctypeFoldStep (acc : CAcc) (kv : String × String) : Res CAcc :=
  if kv.1 = "bl" then
    match pyInt kv.2 with
    | none => .err .valueError
    | some n => .ok { acc with bit_length := some n }
  else if kv.1 = "enc" then .ok { acc with encoding := some kv.2 }
  else if kv.1 = "minsz" then
    match pyInt kv.2 with
    | none => .err .valueError
    | some n => .ok { acc with minimum := some (n : ℚ) }
  else if kv.1 = "maxsz" then
    match pyInt kv.2 with
    | none => .err .valueError
    | some n => .ok { acc with maximum := some (n : ℚ) }
  else .ok acc

/-- The whole `CVALUETYPE` attribute loop (cdd.py lines 90-100). -/
def ctypeFold : List (String × String) → CAcc → Res CAcc
  | [], acc => .ok acc
  | kv :: rest, acc =>
    match ctypeFoldStep acc kv with
    | .err e => .err e
    | .ok acc2 => ctypeFold rest acc2

/-- The body of the `COMP` loop of `_load_data_types` for one `COMP` element
(cdd.py lines 123-141): every `COMP` carries `f` and `o`; when the type is
piecewise (`len(comps) > 1`, passed here as `pw`) it also carries the segment
bounds `s` and `e` which replace minimum/maximum. -/
def loadOneComp (tn : Option String) (tid : String) (acc : CAcc)
    (choices : Option CddChoices) (bo : String) (unit : Option String)
    (pw : Bool) (comp : Xml) : Res DataType :=
  match lookupAttr comp "f" with
  | none => .err .keyError
  | some fstr =>
    match pyFloat fstr with
    | none => .err .valueError
    | some factor =>
      match lookupAttr comp "o" with
      | none => .err .keyError
      | some ostr =>
        match pyFloat ostr with
        | none => .err .valueError
        | some off =>
          if pw then
            match lookupAttr comp "s" with
            | none => .err .keyError
            | some sstr =>
              match pyFloat sstr with
              | none => .err .valueError
              | some mn =>
                match lookupAttr comp "e" with
                | none => .err .keyError
                | some estr =>
                  match pyFloat estr with
                  | none => .err .valueError
                  | some mx =>
                    .ok ⟨tn, tid, acc.bit_length, acc.encoding, some mn,
                         some mx, choices, bo, unit, factor, off⟩
          else
            .ok ⟨tn, tid, acc.bit_length, acc.encoding, acc.minimum,
                 acc.maximum, choices, bo, unit, factor, off⟩

/-- The `COMP` loop of `_load_data_types` (cdd.py lines 119-141) over all
`COMP` elements, collecting the per-segment records in order. -/
def loadComps (tn : Option String) (tid : String) (acc : CAcc)
    (choices : Option CddChoices) (bo : String) (unit : Option String)
    (pw : Bool) : List Xml → Res (List DataType)
  | [] => .ok []
  | comp :: rest =>
    match loadOneComp tn tid acc choices bo unit pw comp with
    | .err e => .err e
    | .ok t =>
      match loadComps tn tid acc choices bo unit pw rest with
      | .err e => .err e
      | .ok tail => .ok (t :: tail)

/-- The part of the `_load_data_types` loop body after the byte-order dispatch
(cdd.py lines 109-156), given the already-resolved byte order and unit: load
choices, then the `COMP` components (none: a single default record with factor
1 and offset 0; one: a single record; several: a list of per-segment records;
a one-record list degenerates to a scalar entry). -/
def loadTailDataType (data_type nameEl : Xml) (type_id : String) (acc : CAcc)
    (byte_order : String) (unit : Option String) : Res (String × DTEntry) :=
  match load_choices data_type with
  | .err e => .err e
  | .ok choices =>
    match findallTag data_type "COMP" with
    | [] =>
      .ok (type_id, .one ⟨nameEl.text, type_id, acc.bit_length,
        acc.encoding, acc.minimum, acc.maximum, choices, byte_order, unit,
        1, 0⟩)
    | comps =>
      match loadComps nameEl.text type_id acc choices byte_order unit
          (decide (1 < comps.length)) comps with
      | .err e => .err e
      | .ok lst =>
        match lst with
        | [t] => .ok (type_id, .one t)
        | _ => .ok (type_id, .many lst)

/-- The body of the `for data_type in types` loop of `_load_data_types`
(cdd.py lines 72-156) for one type element: name and id, the `CVALUETYPE`
attributes, then the byte-order dispatch on `ctype.attrib['bo']` — the code
`'21'` selects big endian, `'12'` little endian, and any other code raises
`ParseError` — and finally the unit, choices and `COMP` components via
`loadTailDataType` (the unit lookup is total, so computing it before the
dispatch instead of after it preserves the Python semantics). -/
def loadOneDataType (data_type : Xml) : Res (String × DTEntry) :=
  match findPath data_type [⟨"NAME", none⟩, ⟨"TUV", some 1⟩] with
  | none => .err .attributeError
  | some nameEl =>
    match lookupAttr data_type "id" with
    | none => .err .keyError
    | some type_id =>
      match findChild data_type "CVALUETYPE" with
      | none => .err .attributeError
      | some ctype =>
        match ctypeFold ctype.attrib ⟨none, none, none, none⟩ with
        | .err e => .err e
        | .ok acc =>
          match lookupAttr ctype "bo" with
          | none => .err .keyError
          | some bo =>
            let unit := (findPath data_type
              [⟨"PVALUETYPE", none⟩, ⟨"UNIT", none⟩]).bind Xml.text
            if bo = "21" then
              loadTailDataType data_type nameEl type_id acc "big_endian" unit
            else if bo = "12" then
              loadTailDataType data_type nameEl type_id acc "little_endian" unit
            else .err (.parseError ("Unknown byte order code: " ++ bo))

/-- The type elements collected by `_load_data_types` (cdd.py lines 65-70),
in processing order. -/
def dtypeElems (ecu_doc : Xml) : List Xml :=
  findallPath ecu_doc [⟨"DATATYPES", none⟩, ⟨"IDENT", none⟩] ++
  findallPath ecu_doc [⟨"DATATYPES", none⟩, ⟨"LINCOMP", none⟩] ++
  findallPath ecu_doc [⟨"DATATYPES", none⟩, ⟨"TEXTTBL", none⟩] ++
  findallPath ecu_doc [⟨"DATATYPES", none⟩, ⟨"STRUCTDT", none⟩] ++
  findallPath ecu_doc [⟨"DATATYPES", none⟩, ⟨"EOSITERDT", none⟩] ++
  findallPath ecu_doc [⟨"DATATYPES", none⟩, ⟨"COMPTBL", none⟩]

/-- The catalog fold of `_load_data_types` (cdd.py lines 72-158). -/
def loadDataTypesGo : List Xml → List (String × DTEntry) →
    Res (List (String × DTEntry))
  | [], acc => .ok acc
  | dt :: rest, acc =>
    match loadOneDataType dt with
    | .err e => .err e
    | .ok (tid, entry) => loadDataTypesGo rest (dictInsert acc tid entry)

/-- `_load_data_types` (cdd.py lines 58-158). -/
def load_data_types (ecu_doc : Xml) : Res (List (String × DTEntry)) :=
  loadDataTypesGo (dtypeElems ecu_doc) []

/-- Modelled from the spec: the bit-layout normalizer
`cdd_offset_to_dbc_start_bit` lives in `cantools/database/utils.py`, which is
not among the sources under verification.  Per spec sections 4.2 and 8 it is a
pure function of the structural bit offset, the bit length and the byte order;
for `little_endian` the canonical index is the field's position itself
(structural offset 0 with bit length 8 maps to canonical start bit 0), and for
`big_endian` it is the most-significant-bit index of the containing byte under
the DBC byte-swap numbering. -/
def cdd_offset_to_dbc_start_bit (cdd_offset : Int) (_bit_length : Int)
    (byte_order : String) : Int :=
  if byte_order = "big_endian" then
    8 * (cdd_offset / 8) + (7 - cdd_offset % 8)
  else cdd_offset

/-- Python `Union` of a single value or a per-segment list, as received by the
`Data` constructor for scale, offset, minimum and maximum. -/
inductive PyScalarOrList (α : Type) where
  | scalarV (a : α)
  | lst (l : List α)
  deriving DecidableEq, Repr

/-- `isinstance(x, list)` is false: the value is a plain scalar. -/
def PyScalarOrList.isScalar {α : Type} : PyScalarOrList α → Bool
  | .scalarV _ => true
  | .lst _ => false

/-- Modelled from the spec: the `Data` record (`cantools/database/diagnostics/
data.py` is not among the sources under verification).  Per spec section 3 it
is the per-field record owning name, canonical start bit, bit length, byte
order, scale/offset and minimum/maximum (scalar or per-segment sequence), unit
and choices; it stores what its constructor receives. -/
structure Data where
  name : Option String
  start : Int
  length : Option Int
  byte_order : String
  scale : PyScalarOrList ℚ
  offset : PyScalarOrList ℚ
  minimum : PyScalarOrList (Option ℚ)
  maximum : PyScalarOrList (Option ℚ)
  unit : Option String
  choices : Option CddChoices
  deriving DecidableEq, Repr

/-- `_load_data_element` (cdd.py lines 161-198): resolve `dtref` in the
catalog, wrap a scalar entry into a one-element list, collect per-record
scale/offset/minimum/maximum lists, and build the `Data` record from the first
record's remaining parameters.  An unresolvable `dtref` is a `KeyError`; an
empty list of records makes `types[0]` an `IndexError`; a missing `bl`
attribute leaves `bit_length = None`, which the bit-layout normalizer call
rejects with a `TypeError`; a missing `QUAL` child makes `.text` an
`AttributeError`. -/
def load_data_element (data : Xml) (bit_offset : Int)
    (data_types : List (String × DTEntry)) : Res Data :=
  match lookupAttr data "dtref" with
  | none => .err .keyError
  | some r =>
    match dictLookup data_types r with
    | none => .err .keyError
    | some entry =>
      let types := entryTypes entry
      match types with
      | [] => .err .indexError
      | t0 :: _ =>
        match t0.bit_length with
        | none => .err .typeError
        | some bl =>
          match findChild data "QUAL" with
          | none => .err .attributeError
          | some q =>
            .ok ⟨q.text,
                 cdd_offset_to_dbc_start_bit bit_offset bl t0.byte_order,
                 some bl, t0.byte_order,
                 .lst (types.map DataType.factor),
                 .lst (types.map DataType.offset),
                 .lst (types.map DataType.minimum),
                 .lst (types.map DataType.maximum),
                 t0.unit, t0.choices⟩

/-- The `Did` record assembled per diagnostic instance. -/
structure Did where
  identifier : Int
  name : Option String
  length : Int
  datas : List Data
  deriving DecidableEq, Repr

/-- The returned database: the ordered list of `Did`. -/
structure InternalDatabase where
  dids : List Did
  deriving DecidableEq, Repr

/-- The field loop of `_load_did_element` (cdd.py lines 218-228): process the
data objects in order, keeping the running bit offset, which advances by each
field's bit length (`data` is always truthy and never a list, so the
`if data` / `isinstance(data, list)` checks always take the plain branch). -/
def loadDidDatas (data_types : List (String × DTEntry)) :
    List Xml → Int → Res (List Data × Int)
  | [], offset => .ok ([], offset)
  | obj :: rest, offset =>
    match load_data_element obj offset data_types with
    | .err e => .err e
    | .ok data =>
      match data.length with
      | none => .err .typeError
      | some l =>
        match loadDidDatas data_types rest (offset + l) with
        | .err e => .err e
        | .ok (datas, final) => .ok (data :: datas, final)

/-- The indirect-reference expansion of `_load_did_element` (cdd.py lines
212-216): each `DIDDATAREF` is resolved in the DID reference table; a
`KeyError` (missing attribute or absent target) is caught and the reference is
skipped. -/
def didDataRefObjs (did_data_lib : List (String × Xml)) (refs : List Xml) :
    List Xml :=
  refs.flatMap (fun r =>
    match lookupAttr r "didRef" with
    | none => []
    | some k =>
      match dictLookup did_data_lib k with
      | none => []
      | some el => findallPath el [⟨"STRUCTURE", none⟩, ⟨"DATAOBJ", none⟩])

/-- `_load_did_element` (cdd.py lines 201-237). -/
def load_did_element (did : Xml) (data_types : List (String × DTEntry))
    (did_data_lib : List (String × Xml)) : Res Did :=
  let data_objs :=
    findallPath did [⟨"SIMPLECOMPCONT", none⟩, ⟨"DATAOBJ", none⟩] ++
    findallPath did [⟨"SIMPLECOMPCONT", none⟩, ⟨"UNION", none⟩,
      ⟨"STRUCT", none⟩, ⟨"DATAOBJ", none⟩]
  let refs := findallPath did [⟨"SIMPLECOMPCONT", none⟩, ⟨"DIDDATAREF", none⟩]
  match loadDidDatas data_types (data_objs ++ didDataRefObjs did_data_lib refs) 0 with
  | .err e => .err e
  | .ok (datas, offset) =>
    match findChild did "STATICVALUE" with
    | none => .err .attributeError
    | some sv =>
      match lookupAttr sv "v" with
      | none => .err .keyError
      | some vstr =>
        match pyInt vstr with
        | none => .err .valueError
        | some identifier =>
          match findChild did "QUAL" with
          | none => .err .attributeError
          | some q =>
            .ok ⟨identifier, q.text, Int.fdiv (offset + 7) 8, datas⟩

/-- The dict comprehension of `_load_did_data_refs` (cdd.py lines 240-249):
a `DID` without an `id` attribute raises `KeyError`. -/
def loadDidDataRefsGo : List Xml → List (String × Xml) →
    Res (List (String × Xml))
  | [], acc => .ok acc
  | d :: rest, acc =>
    match lookupAttr d "id" with
    | none => .err .keyError
    | some k => loadDidDataRefsGo rest (dictInsert acc k d)

/-- `_load_did_data_refs` (cdd.py lines 240-249). -/
def load_did_data_refs (ecu_doc : Xml) : Res (List (String × Xml)) :=
  match findChild ecu_doc "DIDS" with
  | none => .ok []
  | some dids => loadDidDataRefsGo (findallTag dids "DID") []

/-- The diagnostic-instance loop of `load_string` (cdd.py lines 264-269),
walking `DIAGCLASS` elements and their `DIAGINST` children in document order. -/
def loadInsts (data_types : List (String × DTEntry))
    (did_data_lib : List (String × Xml)) : List Xml → Res (List Did)
  | [] => .ok []
  | di :: rest =>
    match load_did_element di data_types did_data_lib with
    | .err e => .err e
    | .ok did =>
      match loadInsts data_types did_data_lib rest with
      | .err e => .err e
      | .ok dids => .ok (did :: dids)

/-- The tail of `load_string` from the first `ECU` element on (cdd.py lines
259-271), given the ECU doc element and one ECU element: the data-type catalog
and DID reference table come from the whole ECU doc, the diagnostic instances
only from this ECU's `VAR` subtree. -/
def load_string_from_ecu (ecu_doc e : Xml) : Res InternalDatabase :=
  match load_data_types ecu_doc with
  | .err er => .err er
  | .ok data_types =>
    match load_did_data_refs ecu_doc with
    | .err er => .err er
    | .ok did_data_lib =>
      match findChild e "VAR" with
      | none => .err .attributeError
      | some var =>
        match loadInsts data_types did_data_lib
            ((findallTag var "DIAGCLASS").flatMap
              (fun dc => findallTag dc "DIAGINST")) with
        | .err er => .err er
        | .ok dids => .ok ⟨dids⟩

/-- `load_string` (cdd.py lines 252-271) on the parsed root element: a missing
`ECUDOC` makes every later `find` an `AttributeError`; the data-type catalog
and reference table are loaded first; `ecu_doc.findall('ECU')[0]` raises
`IndexError` when no `ECU` element exists, and only the first `ECU` element's
`VAR` subtree contributes diagnostic instances. -/
def load_string (root : Xml) : Res InternalDatabase :=
  match findChild root "ECUDOC" with
  | none => .err .attributeError
  | some ecu_doc =>
    match findallTag ecu_doc "ECU" with
    | [] =>
      match load_data_types ecu_doc with
      | .err er => .err er
      | .ok _ =>
        match load_did_data_refs ecu_doc with
        | .err er => .err er
        | .ok _ => .err .indexError
    | e :: _ => load_string_from_ecu ecu_doc e

/-! ## Concrete instances used by the claims -/

/-- The piecewise codec of spec section 8: segments `(0,10)` with scale 1 and
offset 0, and `(10,20)` with scale 2 and offset 5. -/
def c5codec : Res SignalBase := mkPiecewise [(0, 10), (10, 20)] [1, 2] [0, 5]

/-- A piecewise codec whose scaled intervals differ from its raw intervals:
one segment with raw interval `(0,1)`, scale 2 and offset 1, so the scaled
interval is `(1,3)`. -/
def c6codec : Res SignalBase := mkPiecewise [(0, 1)] [2] [1]

/-- A scalar catalog record: 8 bits, little endian, factor 3 and offset 7. -/
def c3dt : DataType :=
  ⟨some "T", "T1", some 8, none, none, none, none, "little_endian", none, 3, 7⟩

/-- A catalog whose only entry is the single (scalar) record `c3dt`. -/
def c3types : List (String × DTEntry) := [("T1", .one c3dt)]

/-- A field element referring to the scalar catalog entry. -/
def c3data : Xml :=
  .elem "DATAOBJ" [("dtref", "T1")] none [.elem "QUAL" [] (some "sig") []]

/-- A type element whose `CVALUETYPE` has the unrecognised byte-order code
`99`. -/
def c9bad : Xml :=
  .elem "IDENT" [("id", "T9")] none
    [.elem "NAME" [] none [.elem "TUV" [] (some "N") []],
     .elem "CVALUETYPE" [("bl", "8"), ("bo", "99")] none []]

/-- A type element whose `CVALUETYPE` has the big-endian byte-order code
`21`. -/
def c9good : Xml :=
  .elem "IDENT" [("id", "T1")] none
    [.elem "NAME" [] none [.elem "TUV" [] (some "N") []],
     .elem "CVALUETYPE" [("bl", "8"), ("bo", "21")] none []]

/-- The catalog entry produced for `c9good`: no `COMP` elements, so a single
default record with factor 1, offset 0 and big-endian byte order. -/
def c9goodEntry : DTEntry :=
  .one ⟨some "N", "T1", some 8, none, none, none, none, "big_endian", none, 1, 0⟩

/-- A parsed document whose ECU doc subtree has no `ECU` element. -/
def c10empty : Xml :=
  .elem "ROOT" [] none [.elem "ECUDOC" [] none []]

/-- An `ECU` element with an empty variant subtree. -/
def c10ecu1 : Xml := .elem "ECU" [] none [.elem "VAR" [] none []]

/-- A second `ECU` element, whose variant subtree carries a diagnostic
instance. -/
def c10ecu2 : Xml :=
  .elem "ECU" [] none
    [.elem "VAR" [] none
      [.elem "DIAGCLASS" [] none
        [.elem "DIAGINST" []
          none [.elem "STATICVALUE" [("v", "4660")] none [],
                .elem "QUAL" [] (some "did2") []]]]]

/-- A parsed document with two `ECU` elements. -/
def c10two : Xml :=
  .elem "ROOT" [] none [.elem "ECUDOC" [] none [c10ecu1, c10ecu2]]

/-- A scalar codec with scale 2 and offset 3, as built by `SignalBase_init`
with scalar arguments. -/
def c1s : SignalBase :=
  ⟨"s", 0, 8, "little_endian", false, .scalar 2, .scalar 3, false,
   none, none, none, none, [], []⟩

/-- A scalar identity codec (scale 1, offset 0) with the choice table
`{0: "OFF", 1: "ON"}`. -/
def c7s : SignalBase :=
  ⟨"s", 0, 8, "little_endian", false, .scalar 1, .scalar 0, false,
   none, none, some [(0, "OFF"), (1, "ON")], none, [], []⟩

/-- A scalar codec with scale 2 and offset 1 and an integer raw
representation. -/
def c8s : SignalBase :=
  ⟨"s", 0, 8, "little_endian", false, .scalar 2, .scalar 1, false,
   none, none, none, none, [], []⟩

/-- The `Data` record produced by `load_data_element` for `c3data` against the
catalog `c3types`: all four of scale, offset, minimum and maximum are
one-element lists although the resolved type is scalar. -/
def c3out : Data :=
  ⟨some "sig", 0, some 8, "little_endian", .lst [3], .lst [7], .lst [none],
   .lst [none], none, none⟩

/-! ## Theorems -/

/-- Python's `round` is the identity on integral rationals. -/
theorem pyRound_den_one (q : ℚ) (h : q.den = 1) : (pyRound q : ℚ) = q := by
  have hq : (q.num : ℚ) = q := Rat.coe_int_num_of_den_eq_one h
  simp only [pyRound]
  rw [← hq, Int.floor_intCast]
  norm_num

/-- The linear scan of the segment tables is `List.find?` of the first zipped
segment whose closed interval contains the value. -/
theorem findSegment_eq_find (v : ℚ) (l : List ((ℚ × ℚ) × ℚ × ℚ)) :
    findSegment v l =
      (l.find? (fun t => decide (t.1.1 ≤ v ∧ v ≤ t.1.2))).map
        (fun t => t.2) := by
  induction l with
  | nil => rfl
  | cons hd tl ih =>
    obtain ⟨iv, o, f⟩ := hd
    by_cases hc : iv.1 ≤ v ∧ v ≤ iv.2
    · simp [findSegment, List.find?, hc]
    · simp [findSegment, List.find?, hc, ih]

/-- Folding the `Option.map` of the segment scan into the surrounding match. -/
theorem optionSegMatch (x : Option ((ℚ × ℚ) × ℚ × ℚ)) (er : Err) :
    (match x.map (fun t => t.2) with
     | some p => Res.ok p
     | none => Res.err er) =
    (match x with
     | some t => Res.ok t.2
     | none => (Res.err er : Res (ℚ × ℚ))) := by
  cases x <;> rfl

/-- The state stored by a successful `SignalBase.__init__`: `_scale` and
`_offset` hold exactly the constructor arguments. -/
theorem SignalBase_init_fields (nm : String) (st ln : Int) (bo : String)
    (sg : Bool) (sc off : ScaleT) (mn mx : Option ℚ) (un : Option String)
    (ch : Option Choices) (fl : Bool) (sir : Option (List (ℚ × ℚ)))
    (s : SignalBase)
    (h : SignalBase_init nm st ln bo sg sc off mn mx un ch fl sir = .ok s) :
    s._scale = sc ∧ s._offset = off := by
  unfold SignalBase_init at h
  split at h
  · split at h
    · split at h
      · cases h; exact ⟨rfl, rfl⟩
      · exact Res.noConfusion h
    · exact Res.noConfusion h
  · cases h; exact ⟨rfl, rfl⟩

/-- C1: the scalar views `offset` and `scale` of a constructed codec return
the single value for a scalar representation, but raise `TypeError` (they do
not return the first element) when the representation is a per-segment list. -/
theorem C1_theorem (nm : String) (st ln : Int) (bo : String) (sg : Bool)
    (sc off : ScaleT) (mn mx : Option ℚ) (un : Option String)
    (ch : Option Choices) (fl : Bool) (sir : Option (List (ℚ × ℚ)))
    (s : SignalBase)
    (h : SignalBase_init nm st ln bo sg sc off mn mx un ch fl sir = .ok s) :
    (∀ q, off = .scalar q → offset_getter s = .ok q) ∧
    (∀ l, off = .lst l → offset_getter s = .err .typeError) ∧
    (∀ q, sc = .scalar q → scale_getter s = .ok q) ∧
    (∀ l, sc = .lst l → scale_getter s = .err .typeError) := by
  obtain ⟨hs, ho⟩ := SignalBase_init_fields nm st ln bo sg sc off mn mx un ch
    fl sir s h
  refine ⟨?_, ?_, ?_, ?_⟩ <;> intro x hx <;>
    simp [offset_getter, scale_getter, ho, hs, hx]

/-- C1 witness: the scalar codec `c1s` (scale 2, offset 3) as constructed by
`SignalBase_init`, on which both scalar views succeed. -/
theorem C1_witness : offset_getter c1s = .ok 3 ∧ scale_getter c1s = .ok 2 := by
  have h := C1_theorem "s" 0 8 "little_endian" false (.scalar 2) (.scalar 3)
    none none none none false none c1s (by decide)
  exact ⟨h.1 3 rfl, h.2.2.1 2 rfl⟩

/-- C1 counterexample: on a codec with per-segment scale and offset lists,
both scalar views raise `TypeError` instead of returning the first element. -/
theorem C1_counterexample :
    c5codec.bind offset_getter = .err .typeError ∧
    c5codec.bind scale_getter = .err .typeError := by
  norm_num [c5codec, mkPiecewise, SignalBase_init, ScaleT.isLst,
    scaledIntervals, zip3, Res.bind, offset_getter, scale_getter]

/-- C2 (amended): constructing a piecewise codec with equal-length segment,
scale and offset lists always succeeds, derives the scaled boundaries as the
affine image of the raw boundaries under each segment's own scale and offset,
and emits no warning whatsoever (there is no overlap detection). -/
theorem C2_theorem (nm : String) (st ln : Int) (bo : String) (sg : Bool)
    (fs offs : List ℚ) (mn mx : Option ℚ) (un : Option String)
    (ch : Option Choices) (fl : Bool) (sir : List (ℚ × ℚ))
    (h1 : sir.length = fs.length) (h2 : sir.length = offs.length) :
    (∃ s, SignalBase_init nm st ln bo sg (.lst fs) (.lst offs) mn mx un ch fl
          (some sir) = .ok s ∧
        s.segment_intervals_scaled = scaledIntervals sir fs offs) ∧
    SignalBase_init_warnings sir fs offs = [] := by
  refine ⟨⟨{ name := nm, start := st, length := ln, byte_order := bo,
             is_signed := sg, _scale := .lst fs, _offset := .lst offs,
             is_float := fl, minimum := mn, maximum := mx, choices := ch,
             unit := un, segment_intervals_raw := sir,
             segment_intervals_scaled := scaledIntervals sir fs offs },
           ?_, rfl⟩, rfl⟩
  unfold SignalBase_init
  simp only [ScaleT.isLst, Bool.true_or, if_true]
  rw [if_pos ⟨h1, h2⟩]

/-- C2 witness: overlapping segments (scaled intervals `(0,10)` and `(5,20)`),
on which construction succeeds and no warning is emitted. -/
theorem C2_witness :
    (∃ s, SignalBase_init "s" 0 8 "little_endian" false (.lst [1, 1])
          (.lst [0, 0]) none none none none false (some [(0, 10), (5, 20)]) =
          .ok s ∧
        s.segment_intervals_scaled = scaledIntervals [(0, 10), (5, 20)] [1, 1]
          [0, 0]) ∧
    SignalBase_init_warnings [(0, 10), (5, 20)] [1, 1] [0, 0] = [] :=
  C2_theorem "s" 0 8 "little_endian" false [1, 1] [0, 0] none none none none
    false [(0, 10), (5, 20)] rfl rfl

/-- C2 counterexample: for the overlapping piecewise input with scaled
intervals `(0,10)` and `(5,20)` — the second segment's scaled lower bound 5
falls at or below the running maximum 10 of scaled upper bounds — the
constructor completes and returns a codec, yet the list of warnings it emits
is empty, contradicting the claimed warning emission. -/
theorem C2_counterexample :
    (mkPiecewise [(0, 10), (5, 20)] [1, 1] [0, 0]).map
      SignalBase.segment_intervals_scaled = .ok [(0, 10), (5, 20)] ∧
    (5 : ℚ) ≤ 10 ∧
    SignalBase_init_warnings [(0, 10), (5, 20)] [1, 1] [0, 0] = [] := by
  refine ⟨?_, by norm_num, rfl⟩
  norm_num [mkPiecewise, SignalBase_init, ScaleT.isLst, scaledIntervals, zip3,
    Res.map]

/-- C4 (amended): the explicit scale and offset setters replace only the
stored scale/offset value; they do not invalidate or re-derive the scaled
segment-boundary cache, which keeps its construction-time contents. -/
theorem C4_theorem (s : SignalBase) (v : ScaleT) :
    (scale_setter s v)._scale = v ∧
    (scale_setter s v).segment_intervals_scaled = s.segment_intervals_scaled ∧
    (scale_setter s v).segment_intervals_raw = s.segment_intervals_raw ∧
    (offset_setter s v)._offset = v ∧
    (offset_setter s v).segment_intervals_scaled = s.segment_intervals_scaled ∧
    (offset_setter s v).segment_intervals_raw = s.segment_intervals_raw :=
  ⟨rfl, rfl, rfl, rfl, rfl, rfl⟩

/-- C4 counterexample: assign new per-segment scale `[2]` and offset `[1]`
through the setters to a codec built with raw interval `(0,10)`, scale `[1]`
and offset `[0]`; the scaled boundary cache still holds `[(0,10)]` and not the
affine image `[(1,21)]` of the raw boundaries under the new pairs. -/
theorem C4_counterexample :
    (mkPiecewise [(0, 10)] [1] [0]).map (fun s =>
        (scale_setter (offset_setter s (.lst [1])) (.lst [2])
          ).segment_intervals_scaled) = .ok [(0, 10)] ∧
    scaledIntervals [(0, 10)] [2] [1] = [(1, 21)] ∧
    ([((0 : ℚ), (10 : ℚ))] : List (ℚ × ℚ)) ≠ [(1, 21)] := by
  refine ⟨?_, by norm_num [scaledIntervals, zip3], by norm_num⟩
  norm_num [mkPiecewise, SignalBase_init, ScaleT.isLst, scaledIntervals, zip3,
    Res.map, offset_setter, scale_setter]

/-- C5 (amended): on the spec's piecewise codec (segments `(0,10)` with scale
1 and offset 0, `(10,20)` with scale 2 and offset 5), raw value 10 resolves to
the FIRST segment's `(offset, scale)` pair `(0, 1)` — first matching segment
in declaration order wins on a shared boundary — and raw value 25 fails with
the range error enumerating both candidate raw intervals. -/
theorem C5_theorem :
    c5codec.bind (fun s => get_offset_and_scaling_for_raw s 10) = .ok (0, 1) ∧
    c5codec.bind (fun s => get_offset_and_scaling_for_raw s 25) =
      .err (.valueErrorIntervals [(0, 10), (10, 20)]) := by
  constructor <;>
    norm_num [c5codec, mkPiecewise, SignalBase_init, ScaleT.isLst,
      scaledIntervals, zip3, Res.bind, get_offset_and_scaling_for_raw,
      findSegment]

/-- C5 counterexample: raw value 10 resolves to the first segment's pair
`(offset 0, scale 1)`, not to the second segment's pair `(offset 5, scale 2)`
as claimed. -/
theorem C5_counterexample :
    c5codec.bind (fun s => get_offset_and_scaling_for_raw s 10) = .ok (0, 1) ∧
    ((0 : ℚ), (1 : ℚ)) ≠ ((5 : ℚ), (2 : ℚ)) := by
  refine ⟨?_, by norm_num⟩
  norm_num [c5codec, mkPiecewise, SignalBase_init, ScaleT.isLst,
    scaledIntervals, zip3, Res.bind, get_offset_and_scaling_for_raw,
    findSegment]

/-- C6 (amended): for a scalar representation both resolvers return the single
`(offset, scale)` pair for every value without raising; for a per-segment
representation each resolver returns the pair of the first segment in
declaration order whose closed interval (raw respectively scaled) contains the
value, and when no segment contains it both fail with a range error that
enumerates the RAW candidate intervals — also the scaled resolver, whose error
lists the raw intervals rather than the scaled intervals it scanned. -/
theorem C6_theorem (s : SignalBase) (v : ℚ) :
    (∀ o f, s._offset = .scalar o → s._scale = .scalar f →
        get_offset_and_scaling_for_raw s v = .ok (o, f) ∧
        get_offset_and_scaling_for_scaled s v = .ok (o, f)) ∧
    (∀ offs fs, s._offset = .lst offs → s._scale = .lst fs →
        get_offset_and_scaling_for_raw s v =
          (match (zip3 s.segment_intervals_raw offs fs).find?
              (fun t => decide (t.1.1 ≤ v ∧ v ≤ t.1.2)) with
           | some t => .ok t.2
           | none => .err (.valueErrorIntervals s.segment_intervals_raw)) ∧
        get_offset_and_scaling_for_scaled s v =
          (match (zip3 s.segment_intervals_scaled offs fs).find?
              (fun t => decide (t.1.1 ≤ v ∧ v ≤ t.1.2)) with
           | some t => .ok t.2
           | none => .err (.valueErrorIntervals s.segment_intervals_raw))) := by
  constructor
  · intro o f ho hf
    constructor <;> simp [get_offset_and_scaling_for_raw,
      get_offset_and_scaling_for_scaled, ho, hf]
  · intro offs fs ho hf
    constructor
    · simp only [get_offset_and_scaling_for_raw, ho, hf]
      rw [findSegment_eq_find]
      exact optionSegMatch _ _
    · simp only [get_offset_and_scaling_for_scaled, ho, hf]
      rw [findSegment_eq_find]
      exact optionSegMatch _ _

/-- C6 witness: the scalar codec `c1s` (scale 2, offset 3), on which both
resolvers return `(3, 2)` for the value 5 without raising. -/
theorem C6_witness :
    get_offset_and_scaling_for_raw c1s 5 = .ok (3, 2) ∧
    get_offset_and_scaling_for_scaled c1s 5 = .ok (3, 2) :=
  (C6_theorem c1s 5).1 3 2 rfl rfl

/-- C6 counterexample: the codec `c6codec` has the single scaled candidate
interval `(1,3)`, yet resolving the out-of-range scaled value 10 fails with a
range error enumerating the raw interval `(0,1)`, which is not the candidate
interval that was scanned. -/
theorem C6_counterexample :
    c6codec.map SignalBase.segment_intervals_scaled = .ok [(1, 3)] ∧
    c6codec.bind (fun s => get_offset_and_scaling_for_scaled s 10) =
      .err (.valueErrorIntervals [(0, 1)]) ∧
    ([((0 : ℚ), (1 : ℚ))] : List (ℚ × ℚ)) ≠ [(1, 3)] := by
  refine ⟨?_, ?_, by norm_num⟩ <;>
    norm_num [c6codec, mkPiecewise, SignalBase_init, ScaleT.isLst,
      scaledIntervals, zip3, Res.bind, Res.map,
      get_offset_and_scaling_for_scaled, findSegment]

/-- C7: `raw_to_scaled(raw, true)` returns the choice label whenever the
choice mapping has `raw` as a key (choice decoding takes precedence over
numeric scaling); otherwise, with `(offset, scale)` resolved for `raw`, it
returns `raw * scale + offset`, which is `raw` unchanged when the offset is 0
and the scale is 1. -/
theorem C7_theorem (s : SignalBase) (raw : ℚ) :
    (∀ label, choiceLookup s.choices raw = some label →
        raw_to_scaled s raw true = .ok (.str label)) ∧
    (∀ o f, choiceLookup s.choices raw = none →
        get_offset_and_scaling_for_raw s raw = .ok (o, f) →
        raw_to_scaled s raw true = .ok (.num (raw * f + o)) ∧
        (o = 0 → f = 1 → raw_to_scaled s raw true = .ok (.num raw))) := by
  constructor
  · intro label hl
    simp [raw_to_scaled, hl]
  · intro o f hn hof
    have hbase : raw_to_scaled s raw true =
        (if f = 1 ∧ o.den = 1 then .ok (.num (raw + o))
         else .ok (.num (raw * f + o))) := by
      simp [raw_to_scaled, hn, hof]
    by_cases hc : f = 1 ∧ o.den = 1
    · rw [hbase, if_pos hc]
      have e1 : raw + o = raw * f + o := by rw [hc.1]; ring
      refine ⟨by rw [e1], ?_⟩
      intro h0 _
      subst h0
      norm_num
    · rw [hbase, if_neg hc]
      refine ⟨rfl, ?_⟩
      intro h0 h1
      subst h0
      exact absurd ⟨h1, by norm_num⟩ hc

/-- C7 witness: on the identity codec `c7s` with choices `{0: OFF, 1: ON}`,
raw value 1 decodes to the label `ON` and raw value 5 (no key) scales to the
number 5. -/
theorem C7_witness :
    raw_to_scaled c7s 1 true = .ok (.str "ON") ∧
    raw_to_scaled c7s 5 true = .ok (.num 5) := by
  constructor
  · exact (C7_theorem c7s 1).1 "ON" (by norm_num [choiceLookup, c7s, List.find?])
  · exact ((C7_theorem c7s 5).2 0 1
      (by norm_num [choiceLookup, c7s, List.find?])
      (by simp [get_offset_and_scaling_for_raw, c7s])).2 rfl rfl

/-- C8 (amended): for every scalar codec with a NONZERO scale the round trip
`scaled_to_raw(raw_to_scaled(raw, false))` recovers `raw` exactly — for a
float-valued codec for every rational raw value, and for an integer-valued
codec for every integral raw value (so in particular the difference stays
strictly below 1).  The nonzero-scale restriction is forced by the
`ZeroDivisionError` counterexample. -/
theorem C8_theorem (s : SignalBase) (o f raw : ℚ)
    (ho : s._offset = .scalar o) (hf : s._scale = .scalar f) (hfz : f ≠ 0) :
    (s.is_float = true →
        (raw_to_scaled s raw false).bind (scaled_to_raw s) = .ok raw) ∧
    (s.is_float = false → raw.den = 1 →
        (raw_to_scaled s raw false).bind (scaled_to_raw s) = .ok raw) := by
  have hraw : get_offset_and_scaling_for_raw s raw = .ok (o, f) := by
    simp [get_offset_and_scaling_for_raw, ho, hf]
  have hsc : ∀ v : ℚ, get_offset_and_scaling_for_scaled s v = .ok (o, f) := by
    intro v; simp [get_offset_and_scaling_for_scaled, ho, hf]
  constructor
  · intro hfl
    by_cases hc : f = 1 ∧ o.den = 1
    · have e1 : raw + o - o = raw := by ring
      simp [raw_to_scaled, scaled_to_raw, hraw, hsc, hc, Res.bind, hfl, e1]
    · have e1 : (raw * f + o - o) / f = raw := by
        rw [add_sub_cancel_right]; exact mul_div_cancel_right₀ raw hfz
      simp [raw_to_scaled, scaled_to_raw, hraw, hsc, hc, Res.bind, hfl, hfz, e1]
  · intro hfl hden
    have e2 : (pyRound raw : ℚ) = raw := pyRound_den_one raw hden
    by_cases hc : f = 1 ∧ o.den = 1
    · have e1 : raw + o - o = raw := by ring
      simp [raw_to_scaled, scaled_to_raw, hraw, hsc, hc, Res.bind, hfl, e1, e2]
    · have e1 : (raw * f + o - o) / f = raw := by
        rw [add_sub_cancel_right]; exact mul_div_cancel_right₀ raw hfz
      simp [raw_to_scaled, scaled_to_raw, hraw, hsc, hc, Res.bind, hfl, hfz,
        e1, e2]

/-- C8 witness: on the integer-valued scalar codec `c8s` (scale 2, offset 1)
the round trip recovers the raw value 3 exactly. -/
theorem C8_witness :
    (raw_to_scaled c8s 3 false).bind (scaled_to_raw c8s) = .ok 3 :=
  (C8_theorem c8s 1 2 3 rfl rfl (by norm_num)).2 rfl (by norm_num)

/-- C8 counterexample: a scalar codec with scale 0 (constructible, and its raw
value 5 is representable) does not round-trip: `raw_to_scaled` collapses every
raw value to the offset and `scaled_to_raw` raises `ZeroDivisionError`, so the
round trip is an exception rather than a value within distance 1 of 5. -/
theorem C8_counterexample :
    (mkScalar 0 0 false none).bind
      (fun s => (raw_to_scaled s 5 false).bind (scaled_to_raw s)) =
      .err .zeroDivisionError ∧
    (Res.err Err.zeroDivisionError : Res ℚ) ≠ .ok 5 := by
  refine ⟨?_, by decide⟩
  norm_num [mkScalar, SignalBase_init, ScaleT.isLst, Res.bind, raw_to_scaled,
    scaled_to_raw, choiceLookup, get_offset_and_scaling_for_raw,
    get_offset_and_scaling_for_scaled]

/-- C3 (amended): the `Data` record assembled by `_load_data_element` carries
scale, offset, minimum and maximum as per-segment LISTS regardless of whether
the resolved catalog type is a scalar entry or a sequence — for a scalar entry
they are one-element lists (one per record of the resolved entry), never
scalars. -/
theorem C3_theorem (data : Xml) (off : Int) (dts : List (String × DTEntry))
    (r : String) (entry : DTEntry) (d : Data)
    (hr : lookupAttr data "dtref" = some r)
    (he : dictLookup dts r = some entry)
    (h : load_data_element data off dts = .ok d) :
    (d.scale = .lst ((entryTypes entry).map DataType.factor) ∧
     d.offset = .lst ((entryTypes entry).map DataType.offset) ∧
     d.minimum = .lst ((entryTypes entry).map DataType.minimum) ∧
     d.maximum = .lst ((entryTypes entry).map DataType.maximum)) ∧
    (d.scale.isScalar = false ∧ d.offset.isScalar = false ∧
     d.minimum.isScalar = false ∧ d.maximum.isScalar = false) := by
  simp only [load_data_element, hr, he] at h
  cases hty : entryTypes entry with
  | nil => simp only [hty] at h; exact Res.noConfusion h
  | cons t0 rest =>
    simp only [hty] at h
    cases hbl : t0.bit_length with
    | none => simp only [hbl] at h; exact Res.noConfusion h
    | some bl =>
      simp only [hbl] at h
      cases hq : findChild data "QUAL" with
      | none => simp only [hq] at h; exact Res.noConfusion h
      | some q =>
        simp only [hq] at h
        injection h with h2
        subst h2
        simp [PyScalarOrList.isScalar]

/-- C3 witness: the concrete scalar-entry instance, whose `Data` record holds
the one-element list `[3]` as its scale — a list, not a scalar. -/
theorem C3_witness :
    c3out.scale = .lst ((entryTypes (.one c3dt)).map DataType.factor) ∧
    c3out.scale.isScalar = false := by
  have h := C3_theorem c3data 0 c3types "T1" (.one c3dt) c3out rfl rfl
    (by decide)
  exact ⟨h.1.1, h.2.1⟩

/-- C3 counterexample: for the field `c3data` whose `dtref` resolves to the
single (scalar) catalog entry `c3types["T1"]`, the constructed `Data` record's
scale, offset, minimum and maximum are all lists (`isScalar` is false for each
of them), contradicting the claim that they are scalars in this case. -/
theorem C3_counterexample :
    (load_data_element c3data 0 c3types).map (fun d =>
        (d.scale.isScalar, d.offset.isScalar, d.minimum.isScalar,
         d.maximum.isScalar)) = .ok (false, false, false, false) ∧
    (match dictLookup c3types "T1" with
     | some (.one _) => true
     | _ => false) = true := by
  constructor <;> decide

/-- Every record built by the `COMP`-element body carries the byte order that
was resolved by the dispatch. -/
theorem loadOneComp_byte_order (tn : Option String) (tid : String) (acc : CAcc)
    (ch : Option CddChoices) (bo : String) (un : Option String) (pw : Bool)
    (comp : Xml) (t : DataType)
    (h : loadOneComp tn tid acc ch bo un pw comp = .ok t) :
    t.byte_order = bo := by
  unfold loadOneComp at h
  repeat' split at h
  all_goals first
    | exact Res.noConfusion h
    | (injection h with h2; subst h2; rfl)

/-- Every record in a successfully loaded `COMP` list carries the resolved
byte order. -/
theorem loadComps_byte_order (tn : Option String) (tid : String) (acc : CAcc)
    (ch : Option CddChoices) (bo : String) (un : Option String) (pw : Bool)
    (comps : List Xml) (l : List DataType)
    (h : loadComps tn tid acc ch bo un pw comps = .ok l) :
    ∀ t ∈ l, t.byte_order = bo := by
  induction comps generalizing l with
  | nil =>
    simp only [loadComps] at h
    cases h
    simp
  | cons c rest ih =>
    simp only [loadComps] at h
    cases hc : loadOneComp tn tid acc ch bo un pw c with
    | err e => simp only [hc] at h; exact Res.noConfusion h
    | ok t =>
      simp only [hc] at h
      cases hrest : loadComps tn tid acc ch bo un pw rest with
      | err e => simp only [hrest] at h; exact Res.noConfusion h
      | ok tail =>
        simp only [hrest] at h
        cases h
        intro t2 ht2
        rcases List.mem_cons.mp ht2 with rfl | h2
        · exact loadOneComp_byte_order tn tid acc ch bo un pw c t2 hc
        · exact ih tail hrest t2 h2

/-- Every record of a catalog entry produced by the post-dispatch tail of the
type loader carries the resolved byte order. -/
theorem loadTail_byte_order (dtx nameEl : Xml) (tid : String) (acc : CAcc)
    (bo : String) (un : Option String) (p : String × DTEntry)
    (h : loadTailDataType dtx nameEl tid acc bo un = .ok p) :
    (entryByteOrders p.2).all (fun b => decide (b = bo)) = true := by
  unfold loadTailDataType at h
  cases hch : load_choices dtx with
  | err e => simp only [hch] at h; exact Res.noConfusion h
  | ok choices =>
    simp only [hch] at h
    cases hcomps : findallTag dtx "COMP" with
    | nil =>
      simp only [hcomps] at h
      injection h with h2
      subst h2
      simp [entryByteOrders, entryTypes]
    | cons c cs =>
      simp only [hcomps] at h
      cases hlc : loadComps nameEl.text tid acc choices bo un
          (decide (1 < (c :: cs).length)) (c :: cs) with
      | err e => simp only [hlc] at h; exact Res.noConfusion h
      | ok lst =>
        simp only [hlc] at h
        have hall := loadComps_byte_order nameEl.text tid acc choices bo un
          (decide (1 < (c :: cs).length)) (c :: cs) lst hlc
        have hgoal : ∀ q : String × DTEntry,
            entryTypes q.2 = lst ∨ (∃ t, lst = [t] ∧ entryTypes q.2 = [t]) →
            (entryByteOrders q.2).all (fun b => decide (b = bo)) = true := by
          intro q hq
          refine List.all_eq_true.mpr ?_
          intro b hb
          obtain ⟨t3, ht3, rfl⟩ := List.mem_map.mp hb
          rcases hq with hq | ⟨t, hlt, hq⟩
          · exact decide_eq_true (hall t3 (hq ▸ ht3))
          · rw [hq] at ht3
            rcases List.mem_singleton.mp ht3 with rfl
            exact decide_eq_true (hall t3 (by rw [hlt]; exact List.mem_singleton.mpr rfl))
        cases lst with
        | nil =>
          cases h
          exact hgoal _ (Or.inl rfl)
        | cons t ts =>
          cases ts with
          | nil =>
            cases h
            exact hgoal _ (Or.inr ⟨t, rfl, rfl⟩)
          | cons t2 ts2 =>
            cases h
            exact hgoal _ (Or.inl rfl)

/-- If some element of the processed type list fails to load, the catalog fold
fails. -/
theorem loadDataTypesGo_err (l : List Xml) (dt : Xml) (er : Err)
    (hdt : loadOneDataType dt = .err er) :
    ∀ acc, dt ∈ l → ∃ er2, loadDataTypesGo l acc = .err er2 := by
  induction l with
  | nil => intro acc hmem; cases hmem
  | cons x rest ih =>
    intro acc hmem
    simp only [loadDataTypesGo]
    cases hx : loadOneDataType x with
    | err e => exact ⟨e, by simp⟩
    | ok p =>
      obtain ⟨tid, entry⟩ := p
      cases hmem with
      | head =>
        rw [hdt] at hx
        exact Res.noConfusion hx
      | tail _ hmem2 => exact ih _ hmem2

/-- A failing data-type catalog makes the whole parse fail with the same
error. -/
theorem load_string_err (root doc : Xml) (er : Err)
    (hr : findChild root "ECUDOC" = some doc)
    (hl : load_data_types doc = .err er) :
    load_string root = .err er := by
  unfold load_string
  simp only [hr]
  cases hecu : findallTag doc "ECU" with
  | nil => simp [hl]
  | cons e rest => simp [load_string_from_ecu, hl]

/-- C9: with the name, id and `CVALUETYPE` of a type element resolved and its
attribute loop successful, the byte-order code `'21'` produces records that
are all big endian and `'12'` records that are all little endian, while any
other code makes the type loader raise `ParseError` — an error that aborts the
whole data-type catalog construction and, through it, the whole parse. -/
theorem C9_theorem (dt : Xml) (nameEl ctype : Xml) (tid : String) (acc : CAcc)
    (h1 : findPath dt [⟨"NAME", none⟩, ⟨"TUV", some 1⟩] = some nameEl)
    (h2 : lookupAttr dt "id" = some tid)
    (h3 : findChild dt "CVALUETYPE" = some ctype)
    (h4 : ctypeFold ctype.attrib ⟨none, none, none, none⟩ = .ok acc) :
    (∀ bo, lookupAttr ctype "bo" = some bo → bo ≠ "21" → bo ≠ "12" →
        loadOneDataType dt =
          .err (.parseError ("Unknown byte order code: " ++ bo)) ∧
        (∀ doc, dt ∈ dtypeElems doc → ∃ er, load_data_types doc = .err er) ∧
        (∀ root doc er, findChild root "ECUDOC" = some doc →
            load_data_types doc = .err er → load_string root = .err er)) ∧
    (∀ p, loadOneDataType dt = .ok p →
        (lookupAttr ctype "bo" = some "21" →
            (entryByteOrders p.2).all (fun b => decide (b = "big_endian")) =
              true) ∧
        (lookupAttr ctype "bo" = some "12" →
            (entryByteOrders p.2).all (fun b => decide (b = "little_endian")) =
              true)) := by
  constructor
  · intro bo hbo hb1 hb2
    have herr : loadOneDataType dt =
        .err (.parseError ("Unknown byte order code: " ++ bo)) := by
      simp only [loadOneDataType, h1, h2, h3, h4, hbo]
      rw [if_neg hb1, if_neg hb2]
    refine ⟨herr, ?_, ?_⟩
    · intro doc hmem
      exact loadDataTypesGo_err (dtypeElems doc) dt _ herr [] hmem
    · intro root doc er hroot hload
      exact load_string_err root doc er hroot hload
  · intro p hok
    constructor
    · intro hbo
      simp only [loadOneDataType, h1, h2, h3, h4, hbo] at hok
      rw [if_pos trivial] at hok
      exact loadTail_byte_order dt nameEl tid acc "big_endian" _ p hok
    · intro hbo
      simp only [loadOneDataType, h1, h2, h3, h4, hbo] at hok
      rw [if_pos trivial] at hok
      exact loadTail_byte_order dt nameEl tid acc "little_endian" _ p hok

/-- C9 witness: the type element `c9bad` with byte-order code `99` makes the
loader raise `ParseError` with the code in the message, and the element
`c9good` with code `21` yields a catalog entry all of whose records are big
endian. -/
theorem C9_witness :
    loadOneDataType c9bad =
      .err (.parseError ("Unknown byte order code: " ++ "99")) ∧
    (entryByteOrders c9goodEntry).all
      (fun b => decide (b = "big_endian")) = true := by
  constructor
  · exact ((C9_theorem c9bad (.elem "TUV" [] (some "N") [])
      (.elem "CVALUETYPE" [("bl", "8"), ("bo", "99")] none []) "T9"
      ⟨some 8, none, none, none⟩ rfl rfl rfl (by decide)).1
      "99" rfl (by decide) (by decide)).1
  · exact ((C9_theorem c9good (.elem "TUV" [] (some "N") [])
      (.elem "CVALUETYPE" [("bl", "8"), ("bo", "21")] none []) "T1"
      ⟨some 8, none, none, none⟩ rfl rfl rfl (by decide)).2
      ("T1", c9goodEntry) (by decide)).1 rfl

/-- C10: `load_string` assembles DIDs only from the first `ECU` element — with
any further `ECU` elements present, the result is exactly what the tail
computed from the first one yields, so later `ECU` elements contribute no
`Did` records — and a document whose ECU doc subtree has no `ECU` element
fails with `IndexError` (given that the earlier catalog and reference-table
stages succeed) instead of returning an empty database. -/
theorem C10_theorem (root ecu_doc : Xml)
    (h : findChild root "ECUDOC" = some ecu_doc) :
    (∀ dts lib, load_data_types ecu_doc = .ok dts →
        load_did_data_refs ecu_doc = .ok lib →
        findallTag ecu_doc "ECU" = [] →
        load_string root = .err .indexError) ∧
    (∀ e rest, findallTag ecu_doc "ECU" = e :: rest →
        load_string root = load_string_from_ecu ecu_doc e) := by
  constructor
  · intro dts lib h1 h2 h3
    unfold load_string
    simp only [h, h3, h1, h2]
  · intro e rest h1
    unfold load_string
    simp only [h, h1]

/-- C10 witness: the document `c10empty` (no `ECU` element) fails with
`IndexError`, and the document `c10two` (two `ECU` elements) loads exactly as
the tail applied to its first `ECU` element alone. -/
theorem C10_witness :
    load_string c10empty = .err .indexError ∧
    load_string c10two =
      load_string_from_ecu (.elem "ECUDOC" [] none [c10ecu1, c10ecu2])
        c10ecu1 := by
  constructor
  · exact (C10_theorem c10empty (.elem "ECUDOC" [] none []) rfl).1 [] [] rfl
      rfl rfl
  · exact (C10_theorem c10two (.elem "ECUDOC" [] none [c10ecu1, c10ecu2])
      rfl).2 c10ecu1 [c10ecu2] rfl

end Cantools
